import Mathlib

/-!
Verification of the ugreen_leds_ethutild daemon core against its design
document.  The C++ sources are shallowly embedded below: bytes are `Nat`
values below 256, C `int` results are `Int`, `uint64_t` arithmetic is `Nat`
arithmetic taken `% 2^64`, and `double` quantities are modelled as `ℚ`.
Bus I/O is modelled by an environment function assigning a result code to
every block write, and every operation returns the ordered list of block
writes it issued.
-/

namespace Ledctl

/-! ### Command codec (led_controller.cpp) -/

/-- Embeds `compute_checksum(data, size)`: the arithmetic sum of the first
`size` bytes, or 0 when `size < 2` or `size` exceeds the buffer length.
The C `int` accumulator never overflows for the frame sizes used here. -/
def compute_checksum (data : List Nat) (size : Nat) : Nat :=
  if size < 2 ∨ data.length < size then 0
  else ((data.take size).sum)

/-- Embeds `verify_checksum(data)`: recompute the sum over all bytes except
the trailing two and compare with the big-endian trailing 16-bit value;
a zero sum is always rejected. -/
def verify_checksum (data : List Nat) : Bool :=
  let size := data.length
  if size < 2 then false
  else
    let sum := compute_checksum data (size - 2)
    decide (sum ≠ 0) && decide (sum = (data.getD (size - 1) 0) ||| ((data.getD (size - 2) 0) <<< 8))

/-- Embeds `append_checksum(data)`: append the 16-bit sum big-endian. -/
def append_checksum (data : List Nat) : List Nat :=
  let sum := compute_checksum data data.length
  data ++ [(sum >>> 8) &&& 0xff, sum &&& 0xff]

/-- The 10-byte command payload built inside `led_controller_t::_change_status`
before the checksum is appended: a zero placeholder for the address byte,
the fixed header `0xa0 0x01 0x00 0x00`, the opcode, and the four optional
parameter bytes (absent parameters default to 0). -/
def command_payload (command : Nat) (params : Option Nat × Option Nat × Option Nat × Option Nat) :
    List Nat :=
  [0x00, 0xa0, 0x01, 0x00, 0x00, command,
   params.1.getD 0x00, params.2.1.getD 0x00, params.2.2.1.getD 0x00, params.2.2.2.getD 0x00]

/-- The frame transmitted by `led_controller_t::_change_status`: checksum is
appended to the payload first, and only then is the placeholder byte at
index 0 overwritten with the LED id (`data[0] = (uint8_t)id`). -/
def change_status_frame (idByte command : Nat)
    (params : Option Nat × Option Nat × Option Nat × Option Nat) : List Nat :=
  (append_checksum (command_payload command params)).set 0 idByte

/-! ### LED controller operations (led_controller.cpp / led_controller.h) -/

/-- `led_controller_t::led_type_t`: address bytes 0–9. -/
inductive led_type_t where
  | power | netdev | disk1 | disk2 | disk3 | disk4 | disk5 | disk6 | disk7 | disk8
  deriving DecidableEq, Repr

/-- The `(uint8_t)id` cast: the underlying enum value. -/
def ledIdByte : led_type_t → Nat
  | .power => 0 | .netdev => 1 | .disk1 => 2 | .disk2 => 3 | .disk3 => 4
  | .disk4 => 5 | .disk5 => 6 | .disk6 => 7 | .disk7 => 8 | .disk8 => 9

/-- `rgb_color_t`. -/
structure rgb_color_t where
  r : Nat
  g : Nat
  b : Nat
  deriving DecidableEq, Repr

def COLOR_WHITE : rgb_color_t := ⟨255, 255, 255⟩
def COLOR_GREEN : rgb_color_t := ⟨0, 255, 0⟩
def COLOR_BLUE : rgb_color_t := ⟨0, 0, 255⟩
def COLOR_RED : rgb_color_t := ⟨255, 0, 0⟩
def COLOR_OFF : rgb_color_t := ⟨0, 0, 0⟩

/-- One `_i2c.write_block_data(addr, frame)` bus transaction. -/
structure BusWrite where
  addr : Nat
  frame : List Nat
  deriving DecidableEq, Repr

/-- The bus environment: the result code each block write returns. -/
def Env := BusWrite → Int

/-- `led_controller_t::_change_status`: build the frame, overwrite the
address byte, and issue a single block write. -/
def change_status (env : Env) (id : led_type_t) (command : Nat)
    (params : Option Nat × Option Nat × Option Nat × Option Nat) : Int × List BusWrite :=
  let w : BusWrite := ⟨ledIdByte id, change_status_frame (ledIdByte id) command params⟩
  (env w, [w])

/-- `led_controller_t::set_onoff`: reject any status other than 0 or 1
before touching the bus. -/
def set_onoff (env : Env) (id : led_type_t) (status : Nat) : Int × List BusWrite :=
  if 2 ≤ status then (-1, [])
  else change_status env id 0x03 (some status, none, none, none)

/-- `led_controller_t::set_rgb`. -/
def set_rgb (env : Env) (id : led_type_t) (r g b : Nat) : Int × List BusWrite :=
  change_status env id 0x02 (some r, some g, some b, none)

/-- `led_controller_t::set_brightness`. -/
def set_brightness (env : Env) (id : led_type_t) (brightness : Nat) : Int × List BusWrite :=
  change_status env id 0x01 (some brightness, none, none, none)

/-- `led_controller_t::turn_off_led`. -/
def turn_off_led (env : Env) (id : led_type_t) : Int × List BusWrite :=
  set_onoff env id 0

/-- `led_controller_t::set_led_state`: off delegates to `turn_off_led`; on
sends color, brightness, then on, short-circuiting after the first
failure.  The `usleep` dwells have no effect on the values computed. -/
def set_led_state (env : Env) (id : led_type_t) (onFlag : Bool) (color : rgb_color_t)
    (brightness : Nat) : Int × List BusWrite :=
  if !onFlag then turn_off_led env id
  else
    let s1 := set_rgb env id color.r color.g color.b
    if s1.1 ≠ 0 then s1
    else
      let s2 := set_brightness env id brightness
      if s2.1 ≠ 0 then (s2.1, s1.2 ++ s2.2)
      else
        let s3 := set_onoff env id 1
        (s3.1, s1.2 ++ s2.2 ++ s3.2)

/-- C `int` bitwise OR, as used by `result |= temp_result`. -/
def cOr (a b : Int) : Int := Int.lor a b

/-- `led_controller_t::is_last_modification_successful`: the byte read from
register 0x80 must equal 1.  The read value is the `ack` parameter. -/
def is_last_modification_successful (ack : Int) : Bool := ack == 1

/-- `led_controller_t::turn_off_all_leds`: turn off power, netdev, disk1,
disk2 in that order, OR-ing failures of the last three into the result;
if everything succeeded, a write-ack value different from 1 turns the
result into -1. -/
def turn_off_all_leds (env : Env) (ack : Int) : Int × List BusWrite :=
  let sp := turn_off_led env .power
  let result := sp.1
  let sn := turn_off_led env .netdev
  let result := if sn.1 ≠ 0 then cOr result sn.1 else result
  let s1 := turn_off_led env .disk1
  let result := if s1.1 ≠ 0 then cOr result s1.1 else result
  let s2 := turn_off_led env .disk2
  let result := if s2.1 ≠ 0 then cOr result s2.1 else result
  let result := if result = 0 ∧ ¬ is_last_modification_successful ack then -1 else result
  (result, sp.2 ++ sn.2 ++ s1.2 ++ s2.2)

/-! ### Bandwidth sampler (bandwidth_monitor.cpp) -/

/-- `2^64`, the modulus of `uint64_t` arithmetic. -/
def U64 : Nat := 18446744073709551616

/-- `UINT64_MAX`. -/
def U64MAX : Nat := U64 - 1

/-- `uint64_t` subtraction (wrapping). -/
def u64sub (a b : Nat) : Nat := (a + U64 - b % U64) % U64

/-- `uint64_t` addition (wrapping). -/
def u64add (a b : Nat) : Nat := (a + b) % U64

/-- The per-counter byte delta computed inside
`bandwidth_monitor_t::get_bandwidth_usage`:
`current >= previous ? current - previous : (UINT64_MAX - previous) + current`,
in `uint64_t` arithmetic. -/
def wrapDelta (current previous : Nat) : Nat :=
  if previous ≤ current then u64sub current previous
  else u64add (u64sub U64MAX previous) current

/-- `network_stats_t`: counters plus a steady-clock timestamp, kept here in
milliseconds.  A counter equal to `UINT64_MAX` is the sentinel meaning the
counter could not be read. -/
structure network_stats_t where
  rx_bytes : Nat
  tx_bytes : Nat
  ts_ms : Int
  deriving DecidableEq, Repr

/-- `bandwidth_info_t` with the `double` fields modelled as `ℚ`. -/
structure bandwidth_info_t where
  rx_mbps : ℚ
  tx_mbps : ℚ
  total_mbps : ℚ
  usage_percentage : ℚ
  valid : Bool
  deriving DecidableEq, Repr

/-- The mutable fields of `bandwidth_monitor_t` (the interface name plays no
role in the arithmetic). -/
structure monitor_state_t where
  capacity_mbps : Nat
  last_stats : network_stats_t
  ready : Bool
  deriving DecidableEq, Repr

/-- `bandwidth_monitor_t::get_bandwidth_usage`, with the sample the call
reads passed in as `current`.  Returns the reading and the monitor state
after the call.  `_last_stats` is replaced by `current` only on the path
that produces a valid reading; every early return leaves it unchanged. -/
def get_bandwidth_usage (st : monitor_state_t) (current : network_stats_t) :
    bandwidth_info_t × monitor_state_t :=
  let invalid : bandwidth_info_t := ⟨0, 0, 0, 0, false⟩
  if !st.ready then (invalid, st)
  else if current.rx_bytes = U64MAX ∨ current.tx_bytes = U64MAX then (invalid, st)
  else
    let time_diff : Int := current.ts_ms - st.last_stats.ts_ms
    if time_diff < 100 then (invalid, st)
    else
      let seconds : ℚ := (time_diff : ℚ) / 1000
      let rx_diff := wrapDelta current.rx_bytes st.last_stats.rx_bytes
      let tx_diff := wrapDelta current.tx_bytes st.last_stats.tx_bytes
      let rx_mbps : ℚ := ((rx_diff : ℚ) * 8) / (seconds * 1000000)
      let tx_mbps : ℚ := ((tx_diff : ℚ) * 8) / (seconds * 1000000)
      let total_mbps := rx_mbps + tx_mbps
      let usage := (total_mbps / (st.capacity_mbps : ℚ)) * 100
      let usage := if usage > 100 then 100 else usage
      (⟨rx_mbps, tx_mbps, total_mbps, usage, true⟩, { st with last_stats := current })

/-! ### LED state manager (led_state_manager.cpp / led_state_manager.h) -/

/-- `led_state_t`: the four visual states. -/
inductive led_state_t where
  | UTILIZATION_OFF | NETDEV_GREEN | NETDEV_DISK1_BLUE | ALL_UTILIZATION_RED
  deriving DecidableEq, Repr

/-- The fields of `led_state_manager_t`. -/
structure manager_state_t where
  current_state : led_state_t
  brightness : Nat
  low_threshold : Nat
  medium_threshold : Nat
  high_threshold : Nat
  deriving DecidableEq, Repr

/-- `led_state_manager_t::determine_state_from_usage`: successive strict
comparisons of the usage percentage against the three thresholds. -/
def determine_state_from_usage (m : manager_state_t) (usage_percentage : ℚ) : led_state_t :=
  if usage_percentage < (m.low_threshold : ℚ) then .UTILIZATION_OFF
  else if usage_percentage < (m.medium_threshold : ℚ) then .NETDEV_GREEN
  else if usage_percentage < (m.high_threshold : ℚ) then .NETDEV_DISK1_BLUE
  else .ALL_UTILIZATION_RED

/-- `led_state_manager_t::get_target_led_states`: the fixed
(netdev, disk1, disk2, color) tuple for each visual state. -/
def get_target_led_states (state : led_state_t) : Bool × Bool × Bool × rgb_color_t :=
  match state with
  | .UTILIZATION_OFF => (false, false, false, COLOR_OFF)
  | .NETDEV_GREEN => (true, false, false, COLOR_GREEN)
  | .NETDEV_DISK1_BLUE => (true, true, false, COLOR_BLUE)
  | .ALL_UTILIZATION_RED => (true, true, true, COLOR_RED)

/-- `led_state_manager_t::apply_led_state`: assert power on/white first
(aborting on failure), then handle netdev, disk1 and disk2 in order,
aggregating their failures into one boolean. -/
def apply_led_state (env : Env) (m : manager_state_t) (state : led_state_t) :
    Bool × List BusWrite :=
  let t := get_target_led_states state
  let sp := set_led_state env .power true COLOR_WHITE m.brightness
  if sp.1 ≠ 0 then (false, sp.2)
  else
    let sn := if t.1 then set_led_state env .netdev true t.2.2.2 m.brightness
              else turn_off_led env .netdev
    let s1 := if t.2.1 then set_led_state env .disk1 true t.2.2.2 m.brightness
              else turn_off_led env .disk1
    let s2 := if t.2.2.1 then set_led_state env .disk2 true t.2.2.2 m.brightness
              else turn_off_led env .disk2
    ((decide (sn.1 = 0) && decide (s1.1 = 0) && decide (s2.1 = 0)),
     sp.2 ++ sn.2 ++ s1.2 ++ s2.2)

/-- `led_state_manager_t::update_leds`: bail out on an invalid reading;
compute the target state; do nothing when it equals the current state;
otherwise apply it and record it only on full success. -/
def update_leds (env : Env) (m : manager_state_t) (bw : bandwidth_info_t) :
    Bool × manager_state_t × List BusWrite :=
  if !bw.valid then (false, m, [])
  else
    let new_state := determine_state_from_usage m bw.usage_percentage
    if new_state ≠ m.current_state then
      let a := apply_led_state env m new_state
      if a.1 then (true, { m with current_state := new_state }, a.2)
      else (false, m, a.2)
    else (true, m, [])

/-! ### Concrete fixtures used to exercise the theorems -/

/-- A bus on which every write succeeds. -/
def envOk : Env := fun _ => 0

/-- A bus on which every write to the netdev LED (address byte 1) fails
with -1 and every other write succeeds. -/
def envNetdevFail : Env := fun w => if w.addr = 1 then -1 else 0

/-- A manager in the idle state with the documented default thresholds
10/40/80 and full brightness. -/
def mgrOff : manager_state_t := ⟨.UTILIZATION_OFF, 255, 10, 40, 80⟩

/-- The same manager already showing the low-utilization state. -/
def mgrGreen : manager_state_t := ⟨.NETDEV_GREEN, 255, 10, 40, 80⟩

/-- A valid reading of 15% utilization (classified LOW / NETDEV_GREEN). -/
def bw15 : bandwidth_info_t := ⟨1, 1, 2, 15, true⟩

/-! ### Helper lemmas -/

theorem lo_byte_eq (S : Nat) : S &&& 255 = S % 256 := by
  have h : (255 : Nat) = 2 ^ 8 - 1 := by norm_num
  rw [h, Nat.and_pow_two_sub_one_eq_mod]

theorem hi_byte_eq (S : Nat) (h : S < 65536) : (S >>> 8) &&& 255 = S / 256 := by
  rw [lo_byte_eq, Nat.shiftRight_eq_div_pow]
  have h8 : (2 : Nat) ^ 8 = 256 := by norm_num
  rw [h8]
  exact Nat.mod_eq_of_lt (by omega)

theorem be16_or (S : Nat) (h : S < 65536) :
    (S &&& 255) ||| (((S >>> 8) &&& 255) <<< 8) = S := by
  rw [lo_byte_eq, hi_byte_eq S h, Nat.shiftLeft_eq]
  have h2 : (2 : Nat) ^ 8 = 256 := by norm_num
  calc S % 256 ||| S / 256 * 2 ^ 8 = 2 ^ 8 * (S / 256) ||| S % 256 := by
        rw [Nat.or_comm, Nat.mul_comm]
    _ = 2 ^ 8 * (S / 256) + S % 256 :=
        (Nat.mul_add_lt_is_or (by omega) _).symm
    _ = S := by rw [h2]; omega

theorem cOr_zero (a : Int) : cOr a 0 = a := by
  cases a with
  | ofNat m =>
      show Int.lor (Int.ofNat m) (Int.ofNat 0) = Int.ofNat m
      simp [Int.lor]
  | negSucc m =>
      show Int.lor (Int.negSucc m) (Int.ofNat 0) = Int.negSucc m
      simp only [Int.lor]
      have h : Nat.ldiff m 0 = m := by
        rw [Nat.ldiff, Nat.bitwise_zero_right]
        simp
      rw [h]

theorem verify_append (data : List Nat) (h2 : 2 ≤ data.length)
    (hnz : data.sum ≠ 0) (hlt : data.sum < 65536) :
    verify_checksum (append_checksum data) = true := by
  have hs0 : compute_checksum data data.length = data.sum := by
    rw [compute_checksum, if_neg (by omega), List.take_length]
  simp only [append_checksum, hs0]
  have hlen : (data ++ [(data.sum >>> 8) &&& 255, data.sum &&& 255]).length
      = data.length + 2 := by simp
  simp only [verify_checksum, hlen]
  rw [if_neg (by omega)]
  have hsum : compute_checksum (data ++ [(data.sum >>> 8) &&& 255, data.sum &&& 255])
      (data.length + 2 - 2) = data.sum := by
    rw [compute_checksum, if_neg (by simp; omega)]
    have ht : (data ++ [(data.sum >>> 8) &&& 255, data.sum &&& 255]).take (data.length + 2 - 2)
        = data := List.take_left' (by omega)
    rw [ht]
  rw [hsum]
  have hget1 : (data ++ [(data.sum >>> 8) &&& 255, data.sum &&& 255]).getD
      (data.length + 2 - 1) 0 = data.sum &&& 255 := by
    rw [List.getD_eq_getElem?_getD, List.getElem?_append_right (by omega)]
    have hix : data.length + 2 - 1 - data.length = 1 := by omega
    rw [hix]
    rfl
  have hget2 : (data ++ [(data.sum >>> 8) &&& 255, data.sum &&& 255]).getD
      (data.length + 2 - 2) 0 = (data.sum >>> 8) &&& 255 := by
    rw [List.getD_eq_getElem?_getD, List.getElem?_append_right (by omega)]
    have hix : data.length + 2 - 2 - data.length = 0 := by omega
    rw [hix]
    rfl
  rw [hget1, hget2, be16_or data.sum hlt]
  simp [hnz]

/-! ### Claim theorems -/

/-- Claim C2: checksum round-trip — for every opcode byte and tuple of up
to four parameter bytes, the frame built by appending the 16-bit big-endian
checksum to the fixed-header command payload is accepted by
`verify_checksum`. -/
theorem checksum_round_trip (command : Nat)
    (params : Option Nat × Option Nat × Option Nat × Option Nat)
    (hc : command < 256) (h0 : params.1.getD 0 < 256) (h1 : params.2.1.getD 0 < 256)
    (h2 : params.2.2.1.getD 0 < 256) (h3 : params.2.2.2.getD 0 < 256) :
    verify_checksum (append_checksum (command_payload command params)) = true := by
  apply verify_append
  · simp [command_payload]
  · simp only [command_payload, List.sum_cons, List.sum_nil]
    omega
  · simp only [command_payload, List.sum_cons, List.sum_nil]
    omega

/-- Claim C2 witness: the round-trip holds for the concrete on/off frame
of `set_onoff(id, 1)`. -/
theorem checksum_round_trip_witness :
    verify_checksum (append_checksum (command_payload 3 (some 1, none, none, none))) = true :=
  checksum_round_trip 3 (some 1, none, none, none) (by decide) (by decide) (by decide)
    (by decide) (by decide)

/-- Claim C1 counterexample: for the netdev LED (address byte 1), opcode 3
and all-default parameters, the transmitted frame does not have 11 bytes
(it has 12), and its trailing two checksum bytes, read big-endian, differ
from the arithmetic sum of every byte preceding the checksum field —
because `_change_status` computes the checksum before overwriting the
address placeholder with the LED id. -/
theorem frame_claim_counterexample :
    (change_status_frame 1 3 (none, none, none, none)).length ≠ 11 ∧
    256 * (change_status_frame 1 3 (none, none, none, none)).getD 10 0
      + (change_status_frame 1 3 (none, none, none, none)).getD 11 0
      ≠ ((change_status_frame 1 3 (none, none, none, none)).take 10).sum := by
  decide

/-- Claim C1 (amended): every command frame transmitted to the LED chip is
exactly 12 bytes `[addr, 0xA0, 0x01, 0x00, 0x00, opcode, p0, p1, p2, p3,
checksum_hi, checksum_lo]`, and the trailing two checksum bytes, read
big-endian, equal the 16-bit arithmetic sum of the nine bytes between the
address byte and the checksum field (the address byte itself is counted as
its pre-overwrite placeholder value 0x00). -/
theorem change_status_frame_spec (idByte command : Nat)
    (params : Option Nat × Option Nat × Option Nat × Option Nat)
    (hc : command < 256) (h0 : params.1.getD 0 < 256) (h1 : params.2.1.getD 0 < 256)
    (h2 : params.2.2.1.getD 0 < 256) (h3 : params.2.2.2.getD 0 < 256) :
    (change_status_frame idByte command params).length = 12 ∧
    (change_status_frame idByte command params).take 10 =
      [idByte, 0xa0, 0x01, 0x00, 0x00, command, params.1.getD 0, params.2.1.getD 0,
       params.2.2.1.getD 0, params.2.2.2.getD 0] ∧
    256 * (change_status_frame idByte command params).getD 10 0
      + (change_status_frame idByte command params).getD 11 0
      = (((change_status_frame idByte command params).take 10).drop 1).sum := by
  obtain ⟨p0, p1, p2, p3⟩ := params
  simp only at h0 h1 h2 h3
  simp only [change_status_frame, append_checksum, command_payload, compute_checksum,
    List.length_cons, List.length_nil]
  norm_num [List.take_succ_cons, List.sum_cons]
  rw [hi_byte_eq _ (by omega), lo_byte_eq]
  omega

/-- Claim C1 witness: the amended frame layout at a concrete input — the
disk1 LED (address byte 2), opcode 2 (RGB) with parameters (0, 255, 0). -/
theorem change_status_frame_spec_witness :
    (change_status_frame 2 2 (some 0, some 255, some 0, none)).length = 12 ∧
    (change_status_frame 2 2 (some 0, some 255, some 0, none)).take 10 =
      [2, 0xa0, 0x01, 0x00, 0x00, 2, 0, 255, 0, 0] ∧
    256 * (change_status_frame 2 2 (some 0, some 255, some 0, none)).getD 10 0
      + (change_status_frame 2 2 (some 0, some 255, some 0, none)).getD 11 0
      = (((change_status_frame 2 2 (some 0, some 255, some 0, none)).take 10).drop 1).sum :=
  change_status_frame_spec 2 2 (some 0, some 255, some 0, none) (by decide) (by decide)
    (by decide) (by decide) (by decide)

/-- Claim C3: zero-sum rejection — any frame whose bytes before the trailing
two checksum bytes sum to zero is rejected by `verify_checksum`, whatever
the two trailing bytes hold. -/
theorem zero_sum_rejected (payload : List Nat) (c1 c2 : Nat) (hsum : payload.sum = 0) :
    verify_checksum (payload ++ [c1, c2]) = false := by
  have hfl : (payload ++ [c1, c2]).length = payload.length + 2 := by simp
  simp only [verify_checksum, hfl]
  rw [if_neg (by omega)]
  have hcs : compute_checksum (payload ++ [c1, c2]) (payload.length + 2 - 2) = 0 := by
    rw [compute_checksum]
    by_cases hl : payload.length + 2 - 2 < 2
    · rw [if_pos (Or.inl hl)]
    · rw [if_neg (by simp; omega)]
      have ht : (payload ++ [c1, c2]).take (payload.length + 2 - 2) = payload :=
        List.take_left' (by omega)
      rw [ht, hsum]
  rw [hcs]
  simp

/-- Claim C3 witness: the all-zero 11-byte buffer of an absent device is
rejected even though its trailing bytes numerically match the zero sum. -/
theorem zero_sum_rejected_witness :
    verify_checksum ([0, 0, 0, 0, 0, 0, 0, 0, 0] ++ [0, 0]) = false :=
  zero_sum_rejected [0, 0, 0, 0, 0, 0, 0, 0, 0] 0 0 (by decide)

/-- Claim C4: wraparound-safe delta — the per-counter byte delta of
`get_bandwidth_usage` equals `current - previous` when `current ≥ previous`
and `(U64_MAX - previous) + current` otherwise, and for
`previous = 2^64 - 1 - 50`, `current = 10` it is exactly 60. -/
theorem wrapDelta_spec (current previous : Nat) (hc : current < U64) (hp : previous < U64) :
    wrapDelta current previous =
      (if previous ≤ current then current - previous else (U64MAX - previous) + current) ∧
    wrapDelta 10 (U64MAX - 50) = 60 := by
  constructor
  · rw [wrapDelta]
    split
    · rw [u64sub, U64] at *
      omega
    · rw [u64add, u64sub, U64MAX, U64] at *
      omega
  · rw [wrapDelta, if_neg (by rw [U64MAX, U64]; omega), u64add, u64sub, U64MAX, U64]

/-- Claim C4 witness: the delta across a 64-bit counter wrap. -/
theorem wrapDelta_spec_witness :
    wrapDelta 10 (U64MAX - 50) =
      (if U64MAX - 50 ≤ 10 then 10 - (U64MAX - 50) else (U64MAX - (U64MAX - 50)) + 10) ∧
    wrapDelta 10 (U64MAX - 50) = 60 :=
  wrapDelta_spec 10 (U64MAX - 50) (by rw [U64]; norm_num) (by rw [U64MAX, U64]; norm_num)

/-- Claim C5 counterexample: a call whose elapsed interval is below 100 ms
does not replace the stored baseline with the sample it just read — the
early 'return result' paths of `get_bandwidth_usage` skip the
`_last_stats = current_stats` assignment, contradicting the claim that the
baseline is replaced regardless of outcome. -/
theorem baseline_not_always_replaced :
    (get_bandwidth_usage ⟨2000, ⟨0, 0, 0⟩, true⟩ ⟨1000, 2000, 50⟩).2.last_stats
      ≠ (⟨1000, 2000, 50⟩ : network_stats_t) := by
  decide

/-- Claim C5 (amended): after initialization, a call to
`get_bandwidth_usage` replaces the stored baseline sample with the sample
it just read exactly when the call produces a valid reading; on every
other path (not initialized, counters unreadable, elapsed interval under
100 ms) the monitor state, baseline included, is left unchanged, so a
valid reading's delta spans back to the last state-changing call. -/
theorem baseline_replaced_iff_valid (st : monitor_state_t) (current : network_stats_t) :
    ((get_bandwidth_usage st current).1.valid = true →
      (get_bandwidth_usage st current).2.last_stats = current) ∧
    ((get_bandwidth_usage st current).1.valid = false →
      (get_bandwidth_usage st current).2 = st) := by
  simp only [get_bandwidth_usage]
  split
  · simp
  · split
    · simp
    · split
      · simp
      · simp

/-- Claim C5 witness: a valid reading (1 s apart, readable counters)
replaces the baseline, and the sub-100 ms reading leaves it unchanged. -/
theorem baseline_replaced_iff_valid_witness :
    ((get_bandwidth_usage ⟨2000, ⟨0, 0, 0⟩, true⟩ ⟨125000, 125000, 1000⟩).1.valid = true →
      (get_bandwidth_usage ⟨2000, ⟨0, 0, 0⟩, true⟩ ⟨125000, 125000, 1000⟩).2.last_stats
        = ⟨125000, 125000, 1000⟩) ∧
    ((get_bandwidth_usage ⟨2000, ⟨0, 0, 0⟩, true⟩ ⟨125000, 125000, 1000⟩).1.valid = false →
      (get_bandwidth_usage ⟨2000, ⟨0, 0, 0⟩, true⟩ ⟨125000, 125000, 1000⟩).2
        = ⟨2000, ⟨0, 0, 0⟩, true⟩) :=
  baseline_replaced_iff_valid ⟨2000, ⟨0, 0, 0⟩, true⟩ ⟨125000, 125000, 1000⟩

/-- Claim C6: for every usage percentage in [0, 100] and thresholds with
low ≤ medium ≤ high, `determine_state_from_usage` maps the half-open bands
[0, low) to OFF, [low, medium) to LOW (netdev green), [medium, high) to
MEDIUM (netdev+disk1 blue), [high, 100] to HIGH (all red); with thresholds
10/40/80 the boundary usages 9.99, 10, 39.99, 40, 79.99, 80 and 100
classify as OFF, LOW, LOW, MEDIUM, MEDIUM, HIGH, HIGH. -/
theorem classify_bands (m : manager_state_t) (u : ℚ)
    (hlm : m.low_threshold ≤ m.medium_threshold)
    (hmh : m.medium_threshold ≤ m.high_threshold)
    (hu0 : 0 ≤ u) (hu1 : u ≤ 100) :
    ((determine_state_from_usage m u = .UTILIZATION_OFF ↔ u < (m.low_threshold : ℚ)) ∧
     (determine_state_from_usage m u = .NETDEV_GREEN ↔
       (m.low_threshold : ℚ) ≤ u ∧ u < (m.medium_threshold : ℚ)) ∧
     (determine_state_from_usage m u = .NETDEV_DISK1_BLUE ↔
       (m.medium_threshold : ℚ) ≤ u ∧ u < (m.high_threshold : ℚ)) ∧
     (determine_state_from_usage m u = .ALL_UTILIZATION_RED ↔ (m.high_threshold : ℚ) ≤ u)) ∧
    (determine_state_from_usage mgrOff (999 / 100) = .UTILIZATION_OFF ∧
     determine_state_from_usage mgrOff 10 = .NETDEV_GREEN ∧
     determine_state_from_usage mgrOff (3999 / 100) = .NETDEV_GREEN ∧
     determine_state_from_usage mgrOff 40 = .NETDEV_DISK1_BLUE ∧
     determine_state_from_usage mgrOff (7999 / 100) = .NETDEV_DISK1_BLUE ∧
     determine_state_from_usage mgrOff 80 = .ALL_UTILIZATION_RED ∧
     determine_state_from_usage mgrOff 100 = .ALL_UTILIZATION_RED) := by
  have hlm' : (m.low_threshold : ℚ) ≤ (m.medium_threshold : ℚ) := by exact_mod_cast hlm
  have hmh' : (m.medium_threshold : ℚ) ≤ (m.high_threshold : ℚ) := by exact_mod_cast hmh
  constructor
  · rw [determine_state_from_usage]
    split_ifs with h1 h2 h3 <;> refine ⟨?_, ?_, ?_, ?_⟩ <;> simp <;>
      first
        | (intros; linarith)
        | (constructor <;> linarith)
  · refine ⟨?_, ?_, ?_, ?_, ?_, ?_, ?_⟩ <;> norm_num [determine_state_from_usage, mgrOff]

/-- Claim C6 witness: the band characterization instantiated at 50%
utilization with the default thresholds (a MEDIUM reading). -/
theorem classify_bands_witness :
    ((determine_state_from_usage mgrOff 50 = .UTILIZATION_OFF ↔
        (50 : ℚ) < (mgrOff.low_threshold : ℚ)) ∧
     (determine_state_from_usage mgrOff 50 = .NETDEV_GREEN ↔
        (mgrOff.low_threshold : ℚ) ≤ 50 ∧ (50 : ℚ) < (mgrOff.medium_threshold : ℚ)) ∧
     (determine_state_from_usage mgrOff 50 = .NETDEV_DISK1_BLUE ↔
        (mgrOff.medium_threshold : ℚ) ≤ 50 ∧ (50 : ℚ) < (mgrOff.high_threshold : ℚ)) ∧
     (determine_state_from_usage mgrOff 50 = .ALL_UTILIZATION_RED ↔
        (mgrOff.high_threshold : ℚ) ≤ 50)) ∧
    (determine_state_from_usage mgrOff (999 / 100) = .UTILIZATION_OFF ∧
     determine_state_from_usage mgrOff 10 = .NETDEV_GREEN ∧
     determine_state_from_usage mgrOff (3999 / 100) = .NETDEV_GREEN ∧
     determine_state_from_usage mgrOff 40 = .NETDEV_DISK1_BLUE ∧
     determine_state_from_usage mgrOff (7999 / 100) = .NETDEV_DISK1_BLUE ∧
     determine_state_from_usage mgrOff 80 = .ALL_UTILIZATION_RED ∧
     determine_state_from_usage mgrOff 100 = .ALL_UTILIZATION_RED) :=
  classify_bands mgrOff 50 (by decide) (by decide) (by norm_num) (by norm_num)

/-- Claim C7: idempotent apply — when the target state computed from a
valid reading equals the recorded current state, `update_leds` returns
success immediately and issues no bus writes; and after any successful
`update_leds`, repeating the call with the same reading issues no bus
writes and succeeds. -/
theorem idempotent_update (env : Env) (m : manager_state_t) (bw : bandwidth_info_t)
    (hv : bw.valid = true) :
    (determine_state_from_usage m bw.usage_percentage = m.current_state →
      update_leds env m bw = (true, m, [])) ∧
    ((update_leds env m bw).1 = true →
      update_leds env (update_leds env m bw).2.1 bw
        = (true, (update_leds env m bw).2.1, [])) := by
  constructor
  · intro heq
    rw [update_leds]
    simp [hv, heq]
  · intro hok
    by_cases heq : determine_state_from_usage m bw.usage_percentage = m.current_state
    · have h1 : update_leds env m bw = (true, m, []) := by
        rw [update_leds]; simp [hv, heq]
      rw [h1, update_leds]
      simp [hv, heq]
    · by_cases hap :
        (apply_led_state env m (determine_state_from_usage m bw.usage_percentage)).1 = true
      · have h1 : update_leds env m bw =
            (true, { m with current_state := determine_state_from_usage m bw.usage_percentage },
             (apply_led_state env m (determine_state_from_usage m bw.usage_percentage)).2) := by
          rw [update_leds]; simp [hv, heq, hap]
        rw [h1, update_leds]
        have hdet : determine_state_from_usage
            { m with current_state := determine_state_from_usage m bw.usage_percentage }
            bw.usage_percentage = determine_state_from_usage m bw.usage_percentage := rfl
        simp [hv, hdet]
      · have h1 : (update_leds env m bw).1 = false := by
          rw [update_leds]; simp [hv, heq, hap]
        rw [h1] at hok
        exact absurd hok (by simp)

/-- Claim C7 witness: a manager already in the LOW state receiving a 15%
reading returns success with no bus traffic. -/
theorem idempotent_update_witness :
    (determine_state_from_usage mgrGreen bw15.usage_percentage = mgrGreen.current_state →
      update_leds envOk mgrGreen bw15 = (true, mgrGreen, [])) ∧
    ((update_leds envOk mgrGreen bw15).1 = true →
      update_leds envOk (update_leds envOk mgrGreen bw15).2.1 bw15
        = (true, (update_leds envOk mgrGreen bw15).2.1, [])) :=
  idempotent_update envOk mgrGreen bw15 (by decide)

theorem turn_off_led_hits (env : Env) (id : led_type_t) :
    ∃ w ∈ (turn_off_led env id).2, w.addr = ledIdByte id :=
  ⟨⟨ledIdByte id, change_status_frame (ledIdByte id) 0x03 (some 0, none, none, none)⟩,
   by simp [turn_off_led, set_onoff, change_status], rfl⟩

theorem set_led_state_hits (env : Env) (id : led_type_t) (flag : Bool) (c : rgb_color_t)
    (b : Nat) : ∃ w ∈ (set_led_state env id flag c b).2, w.addr = ledIdByte id := by
  cases flag with
  | false =>
      simp only [set_led_state, Bool.not_false, if_pos]
      exact turn_off_led_hits env id
  | true =>
      simp only [set_led_state, Bool.not_true, Bool.false_eq_true, if_false]
      refine ⟨⟨ledIdByte id, change_status_frame (ledIdByte id) 0x02
        (some c.r, some c.g, some c.b, none)⟩, ?_, rfl⟩
      split_ifs <;> simp [set_rgb, change_status]

theorem led_step_hits (env : Env) (id : led_type_t) (flag : Bool) (c : rgb_color_t)
    (b : Nat) :
    ∃ w ∈ (if flag then set_led_state env id true c b else turn_off_led env id).2,
      w.addr = ledIdByte id := by
  cases flag with
  | false =>
      simp only [Bool.false_eq_true, if_false]
      exact turn_off_led_hits env id
  | true =>
      simp only [if_true]
      exact set_led_state_hits env id true c b

theorem apply_led_state_trace (env : Env) (m : manager_state_t) (state : led_state_t)
    (hp : (set_led_state env .power true COLOR_WHITE m.brightness).1 = 0) :
    (apply_led_state env m state).2 =
      (set_led_state env .power true COLOR_WHITE m.brightness).2 ++
      (if (get_target_led_states state).1 then
        set_led_state env .netdev true (get_target_led_states state).2.2.2 m.brightness
       else turn_off_led env .netdev).2 ++
      (if (get_target_led_states state).2.1 then
        set_led_state env .disk1 true (get_target_led_states state).2.2.2 m.brightness
       else turn_off_led env .disk1).2 ++
      (if (get_target_led_states state).2.2.1 then
        set_led_state env .disk2 true (get_target_led_states state).2.2.2 m.brightness
       else turn_off_led env .disk2).2 := by
  simp only [apply_led_state]
  rw [if_neg (by simp [hp])]

/-- Claim C8: partial-failure isolation — when an apply gets past the power
LED step, all three utilization LEDs (netdev, disk1, disk2) are written to
regardless of earlier per-LED failures; the per-LED failures are
aggregated into the single boolean returned by `apply_led_state`; and
`update_leds` records the target state exactly on full success, keeping
the previously recorded state unchanged on any failure. -/
theorem partial_failure_isolation (env : Env) (m : manager_state_t) (bw : bandwidth_info_t)
    (hv : bw.valid = true)
    (hne : determine_state_from_usage m bw.usage_percentage ≠ m.current_state) :
    ((set_led_state env .power true COLOR_WHITE m.brightness).1 = 0 →
      ((∃ w ∈ (apply_led_state env m (determine_state_from_usage m bw.usage_percentage)).2,
          w.addr = ledIdByte .netdev) ∧
       (∃ w ∈ (apply_led_state env m (determine_state_from_usage m bw.usage_percentage)).2,
          w.addr = ledIdByte .disk1) ∧
       (∃ w ∈ (apply_led_state env m (determine_state_from_usage m bw.usage_percentage)).2,
          w.addr = ledIdByte .disk2))) ∧
    ((apply_led_state env m (determine_state_from_usage m bw.usage_percentage)).1 = true →
      update_leds env m bw =
        (true, { m with current_state := determine_state_from_usage m bw.usage_percentage },
         (apply_led_state env m (determine_state_from_usage m bw.usage_percentage)).2)) ∧
    ((apply_led_state env m (determine_state_from_usage m bw.usage_percentage)).1 = false →
      update_leds env m bw =
        (false, m,
         (apply_led_state env m (determine_state_from_usage m bw.usage_percentage)).2)) := by
  refine ⟨?_, ?_, ?_⟩
  · intro hp
    rw [apply_led_state_trace env m (determine_state_from_usage m bw.usage_percentage) hp]
    refine ⟨?_, ?_, ?_⟩
    · obtain ⟨w, hw, hwa⟩ := led_step_hits env .netdev
        (get_target_led_states (determine_state_from_usage m bw.usage_percentage)).1
        (get_target_led_states (determine_state_from_usage m bw.usage_percentage)).2.2.2
        m.brightness
      exact ⟨w, List.mem_append_left _ (List.mem_append_left _ (List.mem_append_right _ hw)),
        hwa⟩
    · obtain ⟨w, hw, hwa⟩ := led_step_hits env .disk1
        (get_target_led_states (determine_state_from_usage m bw.usage_percentage)).2.1
        (get_target_led_states (determine_state_from_usage m bw.usage_percentage)).2.2.2
        m.brightness
      exact ⟨w, List.mem_append_left _ (List.mem_append_right _ hw), hwa⟩
    · obtain ⟨w, hw, hwa⟩ := led_step_hits env .disk2
        (get_target_led_states (determine_state_from_usage m bw.usage_percentage)).2.2.1
        (get_target_led_states (determine_state_from_usage m bw.usage_percentage)).2.2.2
        m.brightness
      exact ⟨w, List.mem_append_right _ hw, hwa⟩
  · intro hap
    rw [update_leds]
    simp [hv, hne, hap]
  · intro hap
    rw [update_leds]
    simp [hv, hne, hap]

/-- Claim C8 witness: with a bus where every netdev write fails, an idle
manager receiving a 15% reading attempts all three utilization LEDs,
reports failure and keeps its recorded state. -/
theorem partial_failure_isolation_witness :
    ((set_led_state envNetdevFail .power true COLOR_WHITE mgrOff.brightness).1 = 0 →
      ((∃ w ∈ (apply_led_state envNetdevFail mgrOff
            (determine_state_from_usage mgrOff bw15.usage_percentage)).2,
          w.addr = ledIdByte .netdev) ∧
       (∃ w ∈ (apply_led_state envNetdevFail mgrOff
            (determine_state_from_usage mgrOff bw15.usage_percentage)).2,
          w.addr = ledIdByte .disk1) ∧
       (∃ w ∈ (apply_led_state envNetdevFail mgrOff
            (determine_state_from_usage mgrOff bw15.usage_percentage)).2,
          w.addr = ledIdByte .disk2))) ∧
    ((apply_led_state envNetdevFail mgrOff
        (determine_state_from_usage mgrOff bw15.usage_percentage)).1 = true →
      update_leds envNetdevFail mgrOff bw15 =
        (true, { mgrOff with
          current_state := determine_state_from_usage mgrOff bw15.usage_percentage },
         (apply_led_state envNetdevFail mgrOff
            (determine_state_from_usage mgrOff bw15.usage_percentage)).2)) ∧
    ((apply_led_state envNetdevFail mgrOff
        (determine_state_from_usage mgrOff bw15.usage_percentage)).1 = false →
      update_leds envNetdevFail mgrOff bw15 =
        (false, mgrOff,
         (apply_led_state envNetdevFail mgrOff
            (determine_state_from_usage mgrOff bw15.usage_percentage)).2)) :=
  partial_failure_isolation envNetdevFail mgrOff bw15 (by decide) (by decide)

/-- Claim C9: `turn_off_all_leds` writes off-commands to power, netdev,
disk1 and disk2 in that fixed order whatever the individual results are;
the overall result is the bitwise OR of the four per-LED results, except
that a write-ack value other than 1 after four successful writes turns the
result into -1. -/
theorem turn_off_all_spec (env : Env) (ack : Int) :
    ((turn_off_all_leds env ack).2.map BusWrite.addr = [0, 1, 2, 3]) ∧
    ((turn_off_all_leds env ack).1 =
      (if cOr (cOr (cOr (turn_off_led env .power).1 (turn_off_led env .netdev).1)
            (turn_off_led env .disk1).1) (turn_off_led env .disk2).1 = 0 ∧ ack ≠ 1 then -1
       else cOr (cOr (cOr (turn_off_led env .power).1 (turn_off_led env .netdev).1)
            (turn_off_led env .disk1).1) (turn_off_led env .disk2).1)) ∧
    ((turn_off_led env .power).1 = 0 → (turn_off_led env .netdev).1 = 0 →
     (turn_off_led env .disk1).1 = 0 → (turn_off_led env .disk2).1 = 0 → ack ≠ 1 →
     (turn_off_all_leds env ack).1 = -1) := by
  refine ⟨?_, ?_, ?_⟩
  · simp [turn_off_all_leds, turn_off_led, set_onoff, change_status, ledIdByte]
  · simp only [turn_off_all_leds]
    by_cases hn : (turn_off_led env .netdev).1 = 0 <;>
      by_cases h1 : (turn_off_led env .disk1).1 = 0 <;>
        by_cases h2 : (turn_off_led env .disk2).1 = 0 <;>
          simp [hn, h1, h2, cOr_zero, is_last_modification_successful]
  · intro hp hn h1 h2 ha
    simp [turn_off_all_leds, hp, hn, h1, h2, is_last_modification_successful, ha]

/-- Claim C9 witness: on a bus where every write succeeds but the write-ack
register reads 0, all four LEDs are written in order and the overall
result is converted to -1. -/
theorem turn_off_all_spec_witness :
    (turn_off_all_leds envOk 0).2.map BusWrite.addr = [0, 1, 2, 3] ∧
    (turn_off_all_leds envOk 0).1 = -1 :=
  ⟨(turn_off_all_spec envOk 0).1,
   (turn_off_all_spec envOk 0).2.2 (by decide) (by decide) (by decide) (by decide) (by decide)⟩

/-- Claim C10: implicit input validation in `set_onoff` — every status
value of 2 or more returns -1 without any bus write, and every status
value of 0 or 1 issues exactly the one command frame of opcode 3. -/
theorem set_onoff_validation (env : Env) (id : led_type_t) (status : Nat) :
    (2 ≤ status → set_onoff env id status = (-1, [])) ∧
    (status < 2 → (set_onoff env id status).2 =
      [⟨ledIdByte id, change_status_frame (ledIdByte id) 0x03
         (some status, none, none, none)⟩]) := by
  constructor
  · intro h
    rw [set_onoff, if_pos h]
  · intro h
    rw [set_onoff, if_neg (by omega), change_status]

/-- Claim C10 witness: status 5 is rejected with no bus write, status 1
produces the single on-command frame. -/
theorem set_onoff_validation_witness :
    set_onoff envOk .netdev 5 = (-1, []) ∧
    (set_onoff envOk .netdev 1).2 =
      [⟨ledIdByte .netdev, change_status_frame (ledIdByte .netdev) 0x03
         (some 1, none, none, none)⟩] :=
  ⟨(set_onoff_validation envOk .netdev 5).1 (by decide),
   (set_onoff_validation envOk .netdev 1).2 (by decide)⟩

end Ledctl
